import Mathlib

/-!
Shallow embedding of the record/replay caching proxy in
`llama_stack/providers/utils/replay_provider.py` and proofs about it.

The embedding models: the JSON-like value domain flowing through the proxy,
Python textual rendering of argument tuples and keyword dictionaries, the
MD5-based cache-key derivation (`_generate_cache_key`), the file-backed
cache store with its directory tree (`_get_cache_path`), the response codec
(serialization in `_save_to_cache`, reconstruction in `_load_from_cache`)
and the dispatch algorithm (`__acall__`), each translated from the source.
Strings are modelled as ASCII text (every rendered argument and key in this
development is ASCII, so UTF-8 encoding is byte-per-character).
-/

set_option maxHeartbeats 1000000
set_option maxRecDepth 100000

namespace Replay

mutual

/-- JSON-like values: the generic data domain of cache records (`response`
payloads) and of plain Python values (str, int, bool, None, list, dict)
appearing as operation arguments and results. -/
inductive Json where
  | null : Json
  | bool (b : Bool) : Json
  | num (n : Int) : Json
  | str (s : String) : Json
  | arr (elems : JsonArr) : Json
  | obj (fields : JsonObj) : Json
deriving DecidableEq

/-- A list of JSON values (a Python list). -/
inductive JsonArr where
  | nil : JsonArr
  | cons (hd : Json) (tl : JsonArr) : JsonArr
deriving DecidableEq

/-- A string-keyed JSON object in insertion order (a Python dict). -/
inductive JsonObj where
  | nil : JsonObj
  | cons (key : String) (val : Json) (tl : JsonObj) : JsonObj
deriving DecidableEq

end

/-- Build a `JsonObj` from a list of key/value pairs (insertion order). -/
def JsonObj.ofList : List (String × Json) → JsonObj
  | [] => .nil
  | (k, v) :: tl => .cons k v (JsonObj.ofList tl)

/-- Build a `JsonArr` from a list of values. -/
def JsonArr.ofList : List Json → JsonArr
  | [] => .nil
  | x :: tl => .cons x (JsonArr.ofList tl)

/-- A Python value handled by the proxy: either a plain JSON-like value or a
pydantic model (a structured response object), identified by its class name
together with its JSON field view (`model_dump(mode="json")`).  The concrete
response classes (`ChatCompletionResponse`, ...) are plain data contracts;
they are modelled as tagged field records. -/
inductive PyVal where
  | json (j : Json) : PyVal
  | model (ty : String) (fields : JsonObj) : PyVal
deriving DecidableEq

mutual

/-- Python `repr` of a JSON-like value (strings render with single quotes,
as Python renders quote-free ASCII strings). -/
def pyReprJson : Json → String
  | .null => "None"
  | .bool true => "True"
  | .bool false => "False"
  | .num n => toString n
  | .str s => "\x27" ++ s ++ "\x27"
  | .arr xs => "[" ++ pyReprArr xs ++ "]"
  | .obj fs => "\x7b" ++ pyReprObj fs ++ "\x7d"

/-- Comma-separated `repr` of list elements. -/
def pyReprArr : JsonArr → String
  | .nil => ""
  | .cons x .nil => pyReprJson x
  | .cons x tl => pyReprJson x ++ ", " ++ pyReprArr tl

/-- Comma-separated `repr` of dict entries, in insertion order. -/
def pyReprObj : JsonObj → String
  | .nil => ""
  | .cons k v .nil => "\x27" ++ k ++ "\x27: " ++ pyReprJson v
  | .cons k v tl => "\x27" ++ k ++ "\x27: " ++ pyReprJson v ++ ", " ++ pyReprObj tl

end

/-- Python `repr` of a value; pydantic models render as
`ClassName(field=value, ...)`. -/
def pyReprVal : PyVal → String
  | .json j => pyReprJson j
  | .model ty fs => ty ++ "(" ++ pyReprModelFields fs ++ ")"
where
  /-- Comma-separated `field=repr(value)` rendering of model fields. -/
  pyReprModelFields : JsonObj → String
    | .nil => ""
    | .cons k v .nil => k ++ "=" ++ pyReprJson v
    | .cons k v tl => k ++ "=" ++ pyReprJson v ++ ", " ++ pyReprModelFields tl

/-- Python `str` of a value: a string renders as its contents, everything
else as its `repr`. -/
def pyStrVal : PyVal → String
  | .json (.str s) => s
  | v => pyReprVal v

/-- Python `str` of an argument tuple (`()`, `(x,)`, `(x, y)`, ...). -/
def reprTuple (xs : List PyVal) : String :=
  match xs with
  | [] => "()"
  | [x] => "(" ++ pyReprVal x ++ ",)"
  | _ => "(" ++ String.intercalate ", " (xs.map pyReprVal) ++ ")"

/-- Python `str` of a keyword-argument dict, in insertion order. -/
def reprKwDict (kw : List (String × PyVal)) : String :=
  "\x7b" ++
    String.intercalate ", "
      (kw.map (fun p => "\x27" ++ p.1 ++ "\x27: " ++ pyReprVal p.2)) ++
  "\x7d"

/-- The positional and keyword arguments of one call, keyword arguments in
their insertion order (Python dicts preserve insertion order). -/
structure CallArgs where
  pos : List PyVal
  kw : List (String × PyVal)
deriving DecidableEq

/-- The `param_str` value of `_generate_cache_key`: the argument tuple and the
keyword dict rendered by Python, joined by an underscore. -/
def paramString (a : CallArgs) : String :=
  reprTuple a.pos ++ "_" ++ reprKwDict a.kw

/-! ## MD5 (`hashlib.md5`), on `Nat` arithmetic mod `2 ^ 32` -/

/-- Constant `2 ^ 32`, the modulus of all 32-bit MD5 arithmetic. -/
def mask32 : Nat := 4294967296

/-- Left rotation of 32-bit `x` (for `x < 2 ^ 32`, `1 ≤ n ≤ 31`). -/
def rotl32 (x n : Nat) : Nat :=
  (x * 2 ^ n + x / 2 ^ (32 - n)) % mask32

/-- The 64 MD5 round constants `K[i] = floor(2^32 * abs(sin(i + 1)))`. -/
def md5K : List Nat :=
  [0xd76aa478, 0xe8c7b756, 0x242070db, 0xc1bdceee,
   0xf57c0faf, 0x4787c62a, 0xa8304613, 0xfd469501,
   0x698098d8, 0x8b44f7af, 0xffff5bb1, 0x895cd7be,
   0x6b901122, 0xfd987193, 0xa679438e, 0x49b40821,
   0xf61e2562, 0xc040b340, 0x265e5a51, 0xe9b6c7aa,
   0xd62f105d, 0x02441453, 0xd8a1e681, 0xe7d3fbc8,
   0x21e1cde6, 0xc33707d6, 0xf4d50d87, 0x455a14ed,
   0xa9e3e905, 0xfcefa3f8, 0x676f02d9, 0x8d2a4c8a,
   0xfffa3942, 0x8771f681, 0x6d9d6122, 0xfde5380c,
   0xa4beea44, 0x4bdecfa9, 0xf6bb4b60, 0xbebfbc70,
   0x289b7ec6, 0xeaa127fa, 0xd4ef3085, 0x04881d05,
   0xd9d4d039, 0xe6db99e5, 0x1fa27cf8, 0xc4ac5665,
   0xf4292244, 0x432aff97, 0xab9423a7, 0xfc93a039,
   0x655b59c3, 0x8f0ccc92, 0xffeff47d, 0x85845dd1,
   0x6fa87e4f, 0xfe2ce6e0, 0xa3014314, 0x4e0811a1,
   0xf7537e82, 0xbd3af235, 0x2ad7d2bb, 0xeb86d391]

/-- The 64 MD5 per-round left-rotation amounts. -/
def md5S : List Nat :=
  [7, 12, 17, 22, 7, 12, 17, 22, 7, 12, 17, 22, 7, 12, 17, 22,
   5, 9, 14, 20, 5, 9, 14, 20, 5, 9, 14, 20, 5, 9, 14, 20,
   4, 11, 16, 23, 4, 11, 16, 23, 4, 11, 16, 23, 4, 11, 16, 23,
   6, 10, 15, 21, 6, 10, 15, 21, 6, 10, 15, 21, 6, 10, 15, 21]

/-- The four 32-bit MD5 chaining words. -/
structure MD5State where
  a : Nat
  b : Nat
  c : Nat
  d : Nat
deriving DecidableEq

/-- The MD5 initialization vector. -/
def md5Init : MD5State := ⟨0x67452301, 0xefcdab89, 0x98badcfe, 0x10325476⟩

/-- The MD5 nonlinear mixing function of round `i` (F, G, H, I). -/
def md5Mix (i b c d : Nat) : Nat :=
  if i < 16 then (b &&& c) ||| ((b ^^^ 0xffffffff) &&& d)
  else if i < 32 then (d &&& b) ||| ((d ^^^ 0xffffffff) &&& c)
  else if i < 48 then b ^^^ c ^^^ d
  else c ^^^ (b ||| (d ^^^ 0xffffffff))

/-- The message-word index used by MD5 round `i`. -/
def md5MsgIndex (i : Nat) : Nat :=
  if i < 16 then i
  else if i < 32 then (5 * i + 1) % 16
  else if i < 48 then (3 * i + 5) % 16
  else (7 * i) % 16

/-- One MD5 round: `m` gives the 16 message words of the current block. -/
def md5Round (m : Nat → Nat) (st : MD5State) (i : Nat) : MD5State :=
  let f := (md5Mix i st.b st.c st.d + st.a + md5K.getD i 0 + m (md5MsgIndex i)) % mask32
  ⟨st.d, (st.b + rotl32 f (md5S.getD i 0)) % mask32, st.b, st.c⟩

/-- Little-endian 32-bit word at byte offset `off` of a byte list. -/
def leWord (bs : List Nat) (off : Nat) : Nat :=
  bs.getD off 0 + 256 * bs.getD (off + 1) 0 + 65536 * bs.getD (off + 2) 0 +
    16777216 * bs.getD (off + 3) 0

/-- Process 64-byte block number `blk`: 64 rounds, then add the input
chaining state back in. -/
def md5Block (bs : List Nat) (blk : Nat) (h : MD5State) : MD5State :=
  let m := fun g => leWord bs (blk * 64 + 4 * g)
  let r := (List.range 64).foldl (md5Round m) h
  ⟨(h.a + r.a) % mask32, (h.b + r.b) % mask32, (h.c + r.c) % mask32, (h.d + r.d) % mask32⟩

/-- The `k` little-endian base-256 digits of `x`. -/
def leBytes : Nat → Nat → List Nat
  | 0, _ => []
  | k + 1, x => x % 256 :: leBytes k (x / 256)

/-- MD5 padding: append `0x80`, zeros to 56 mod 64, then the 64-bit
little-endian bit length. -/
def md5Pad (bs : List Nat) : List Nat :=
  let n := bs.length
  bs ++ [0x80] ++ List.replicate ((64 + 56 - (n + 1) % 64) % 64) 0 ++ leBytes 8 (n * 8)

/-- Fold the MD5 compression over every 64-byte block of a padded message. -/
def md5Core (bs : List Nat) : MD5State :=
  (List.range (bs.length / 64)).foldl (fun h blk => md5Block bs blk h) md5Init

/-- UTF-8 bytes of an ASCII string (`param_str.encode()`). -/
def strBytes (s : String) : List Nat :=
  s.data.map Char.toNat

/-- One lowercase hexadecimal digit. -/
def hexDigit (n : Nat) : String :=
  (["0", "1", "2", "3", "4", "5", "6", "7", "8", "9",
    "a", "b", "c", "d", "e", "f"]).getD n "0"

/-- Two lowercase hexadecimal digits of one byte. -/
def byteHex (b : Nat) : String :=
  hexDigit (b / 16 % 16) ++ hexDigit (b % 16)

/-- The digest `hashlib.md5(s.encode()).hexdigest()`: the 32-character lowercase hex
rendering of the digest, little-endian within each chaining word. -/
def md5HexDigest (s : String) : String :=
  let st := md5Core (md5Pad (strBytes s))
  String.join ((leBytes 4 st.a ++ leBytes 4 st.b ++ leBytes 4 st.c ++ leBytes 4 st.d).map byteHex)

/-- The truncated digest `hashlib.md5(param_str.encode()).hexdigest()[:8]` from
`_generate_cache_key`. -/
def truncatedMd5 (s : String) : String :=
  (md5HexDigest s).take 8

/-! ## Dispatcher data model -/

/-- Operating modes of the replay provider (`ReplayMode`). -/
inductive ReplayMode where
  | CACHE_ONLY : ReplayMode
  | CACHE_WITH_FALLBACK : ReplayMode
deriving DecidableEq

/-- A Python exception value crossing the dispatcher boundary. -/
inductive PyExn where
  | attributeError (msg : String) : PyExn
  | runtimeError (msg : String) : PyExn
  | other (exnType : String) (payload : String) : PyExn
deriving DecidableEq

/-- The wrapped real backend: its class name (`type(real_provider).__name__`)
and, for every operation, the result or exception one call produces. -/
structure Backend where
  typeName : String
  impl : String → CallArgs → Except PyExn PyVal

/-- One replay dispatcher instance: the name of the wrapped protocol, the mode,
the optional real backend, and the operation names discovered from the
protocol (`self.routes`). -/
structure Dispatcher where
  protocolName : String
  mode : ReplayMode
  backend : Option Backend
  routes : List String

/-- The provider type name `type(self.real_provider).__name__ if
self.real_provider else "NoProvider"`. -/
def providerTypeName (d : Dispatcher) : String :=
  match d.backend with
  | some b => b.typeName
  | none => "NoProvider"

/-- Python `str.lower()` on ASCII text: lowercase every character. -/
def pyLower (s : String) : String :=
  ⟨s.data.map Char.toLower⟩

/-- Does `pat` occur at the head of `l`? -/
def matchesAt (pat l : List Char) : Bool :=
  match pat, l with
  | [], _ => true
  | _ :: _, [] => false
  | p :: ps, c :: cs => p == c && matchesAt ps cs

/-- Fueled worker for `pyReplace`: scan left to right, replacing each
non-overlapping occurrence of `pat` (any fuel at least the length of the
text is enough, since every step consumes at least one character). -/
def pyReplaceGo (pat repl : List Char) : Nat → List Char → List Char
  | 0, l => l
  | _ + 1, [] => []
  | fuel + 1, c :: cs =>
    if pat ≠ [] ∧ matchesAt pat (c :: cs) then
      repl ++ pyReplaceGo pat repl fuel ((c :: cs).drop pat.length)
    else
      c :: pyReplaceGo pat repl fuel cs

/-- Python `str.replace(pat, repl)` for a nonempty pattern: replace every
non-overlapping occurrence, scanning left to right. -/
def pyReplace (s pat repl : String) : String :=
  ⟨pyReplaceGo pat.data repl.data s.data.length s.data⟩

/-- The api name `protocol.__name__.lower().replace("provider", "")`: the
path and key component. -/
def apiNameOf (protocolName : String) : String :=
  pyReplace (pyLower protocolName) "provider" ""

/-- Function `_generate_cache_key`: an f-string joining api name, provider type, method
name and the truncated MD5 of the rendered parameters with underscores. -/
def generate_cache_key (d : Dispatcher) (methodName : String) (a : CallArgs) : String :=
  apiNameOf d.protocolName ++ "_" ++ providerTypeName d ++ "_" ++ methodName ++ "_" ++
    truncatedMd5 (paramString a)

/-! ## Cache store: files and directories under the cache root -/

/-- One persisted cache file: `cache_key`, `response` payload, and the three
metadata fields, exactly the JSON object written by `_save_to_cache`. -/
structure CacheRecord where
  cache_key : String
  response : Json
  provider_type : String
  api_name : String
  response_type : String
deriving DecidableEq

/-- Filesystem state under the cache root: the set of directories (as
root-relative component paths) and the cache files with their parsed
contents.  File keys are unique. -/
structure FS where
  dirs : List (List String)
  files : List (List String × CacheRecord)
deriving DecidableEq

/-- Read the record stored at a path, if any. -/
def FS.lookupFile (fs : FS) (p : List String) : Option CacheRecord :=
  (fs.files.find? (fun e => e.1 == p)).map (fun e => e.2)

/-- Write a record at a path, overwriting any existing file there. -/
def FS.writeFile (fs : FS) (p : List String) (r : CacheRecord) : FS :=
  { fs with files := (p, r) :: fs.files.filter (fun e => !(e.1 == p)) }

/-- Number of cache files on disk. -/
def FS.fileCount (fs : FS) : Nat :=
  fs.files.length

/-- One `mkdir(exist_ok=True)` of a single directory. -/
def FS.addDir (fs : FS) (p : List String) : FS :=
  if p ∈ fs.dirs then fs else { fs with dirs := fs.dirs ++ [p] }

/-- The `cache_path.parent.mkdir(parents=True, exist_ok=True)` performed by
`_get_cache_path`: creates `api_name/` and `api_name/provider_type/`. -/
def mkdirNamespace (d : Dispatcher) (fs : FS) : FS :=
  (fs.addDir [apiNameOf d.protocolName]).addDir
    [apiNameOf d.protocolName, providerTypeName d]

/-- The root-relative path returned by `_get_cache_path`:
`api_name/provider_type/(cache_key).json`. -/
def get_cache_path (d : Dispatcher) (key : String) : List String :=
  [apiNameOf d.protocolName, providerTypeName d, key ++ ".json"]

/-! ## Response codec -/

/-- The decode registry of `_load_from_cache`: the response class names with
an explicit reconstruction branch. -/
def registryTypes : List String :=
  ["ChatCompletionResponse", "CompletionResponse", "EmbeddingsResponse"]

/-- The serialization chain of `_save_to_cache`: a pydantic model stores its
`model_dump(mode="json")` field view; every other value stores `str(value)`.
(A plain JSON value has neither a `model_dump` nor a `dict` attribute.) -/
def serializeResponse : PyVal → Json
  | .model _ fs => .obj fs
  | .json j => .str (pyStrVal (.json j))

/-- The `type(response).__name__` value for the `response_type` metadata field. -/
def responseTypeName : PyVal → String
  | .model ty _ => ty
  | .json .null => "NoneType"
  | .json (.bool _) => "bool"
  | .json (.num _) => "int"
  | .json (.str _) => "str"
  | .json (.arr _) => "list"
  | .json (.obj _) => "dict"

/-- The record object `_save_to_cache` writes for one response. -/
def encodeRecord (d : Dispatcher) (key : String) (resp : PyVal) : CacheRecord :=
  { cache_key := key
    response := serializeResponse resp
    provider_type := providerTypeName d
    api_name := d.protocolName
    response_type := responseTypeName resp }

/-- Python truthiness of a JSON value (`if response_type and response_data`). -/
def truthyJson : Json → Bool
  | .null => false
  | .bool b => b
  | .num n => n != 0
  | .str s => s != ""
  | .arr .nil => false
  | .arr (.cons _ _) => true
  | .obj .nil => false
  | .obj (.cons _ _ _) => true

/-- The registry reconstruction attempt of `_load_from_cache`: a registry
type constructed from a stored mapping succeeds (the response classes are
plain data contracts, rebuilt from their own dumped field view); `**data` on
a non-mapping raises and is caught; an unregistered type falls through. -/
def reconstructResponse (ty : String) (data : Json) : Option PyVal :=
  if ty ∈ registryTypes then
    match data with
    | .obj fs => some (.model ty fs)
    | _ => none
  else none

/-- Decoding of one existing cache file in `_load_from_cache`: reconstruct
when the type tag and payload are truthy and reconstruction succeeds,
otherwise degrade to the raw stored payload. -/
def decodeRecord (rec : CacheRecord) : PyVal :=
  if rec.response_type != "" && truthyJson rec.response then
    match reconstructResponse rec.response_type rec.response with
    | some v => v
    | none => .json rec.response
  else .json rec.response

/-- Function `_load_from_cache`: compute the cache path (which makes the namespace
directories), then decode the file there; a missing file yields Python
`None`, modelled as the JSON null value. -/
def load_from_cache (d : Dispatcher) (key : String) (fs : FS) : PyVal × FS :=
  let fs1 := mkdirNamespace d fs
  match fs1.lookupFile (get_cache_path d key) with
  | some rec => (decodeRecord rec, fs1)
  | none => (.json .null, fs1)

/-- Function `_save_to_cache`: compute the cache path (which makes the namespace
directories), then write the encoded record there. -/
def save_to_cache (d : Dispatcher) (key : String) (resp : PyVal) (fs : FS) : FS :=
  (mkdirNamespace d fs).writeFile (get_cache_path d key) (encodeRecord d key resp)

/-! ## The dispatch algorithm -/

/-- Observable system state threaded through calls: the cache filesystem and
the call counter of the real backend. -/
structure SysState where
  fs : FS
  backendCalls : Nat
deriving DecidableEq

/-- The message of the `RuntimeError` raised on a `CACHE_ONLY` miss (the
`CacheMissError` of the spec): it names the computed key and the mode. -/
def cacheMissCacheOnlyMsg (key : String) : String :=
  "Cache miss for " ++ key ++ " and mode is CACHE_ONLY"

/-- The message of the `RuntimeError` raised on a fallback miss with no real
backend configured (the `NoBackendError` of the spec). -/
def cacheMissNoProviderMsg (key : String) : String :=
  "Cache miss for " ++ key ++ " and no real provider available"

/-- Function `__acall__`: unknown-method check, key derivation, cache probe, then the
mode branch; a fallback miss calls the real backend (counted) and caches a
successful result. -/
def acall (d : Dispatcher) (methodName : String) (a : CallArgs) (st : SysState) :
    Except PyExn PyVal × SysState :=
  if methodName ∈ d.routes then
    let key := generate_cache_key d methodName a
    let probe := load_from_cache d key st.fs
    let st1 : SysState := { st with fs := probe.2 }
    if probe.1 ≠ PyVal.json Json.null then
      (.ok probe.1, st1)
    else if d.mode = ReplayMode.CACHE_ONLY then
      (.error (.runtimeError (cacheMissCacheOnlyMsg key)), st1)
    else
      match d.backend with
      | none => (.error (.runtimeError (cacheMissNoProviderMsg key)), st1)
      | some b =>
        let st2 : SysState := { st1 with backendCalls := st1.backendCalls + 1 }
        match b.impl methodName a with
        | .error e => (.error e, st2)
        | .ok resp => (.ok resp, { st2 with fs := save_to_cache d key resp st2.fs })
  else
    (.error (.attributeError ("Unknown method: " ++ methodName)), st)


/-! ## Basic lemmas about the store and the probe -/

instance {ε α : Type} [DecidableEq ε] [DecidableEq α] : DecidableEq (Except ε α)
  | .error a, .error b =>
      if h : a = b then .isTrue (congrArg Except.error h)
      else .isFalse (fun hc => h (Except.error.inj hc))
  | .error _, .ok _ => .isFalse (fun hc => Except.noConfusion hc)
  | .ok _, .error _ => .isFalse (fun hc => Except.noConfusion hc)
  | .ok a, .ok b =>
      if h : a = b then .isTrue (congrArg Except.ok h)
      else .isFalse (fun hc => h (Except.ok.inj hc))

/-! ## Concrete fixtures, mirroring the unit tests of the repository -/

/-- The `MockRealProvider` of the unit tests: `completion` returns the dict
`\x7b"content": "Response to: <content>", "model": <model_id>,
"call_number": 1\x7d` (first call). -/
def mockBackend : Backend where
  typeName := "MockRealProvider"
  impl := fun _ _ =>
    .ok (.json (.obj (.cons "content" (.str "Response to: Hello world")
      (.cons "model" (.str "test-model") (.cons "call_number" (.num 1) .nil)))))

/-- A fallback-mode dispatcher over the `MockInferenceProvider` test
protocol, wrapping `mockBackend`. -/
def mockDispatcher : Dispatcher where
  protocolName := "MockInferenceProvider"
  mode := .CACHE_WITH_FALLBACK
  backend := some mockBackend
  routes := ["completion"]

/-- The same dispatcher in `CACHE_ONLY` mode. -/
def cacheOnlyDispatcher : Dispatcher where
  protocolName := "MockInferenceProvider"
  mode := .CACHE_ONLY
  backend := some mockBackend
  routes := ["completion"]

/-- A backend whose call raises (a connection error, say). -/
def failingBackend : Backend where
  typeName := "MockRealProvider"
  impl := fun _ _ => .error (.other "ConnectionError" "boom")

/-- A fallback-mode dispatcher over the failing backend. -/
def failingDispatcher : Dispatcher where
  protocolName := "MockInferenceProvider"
  mode := .CACHE_WITH_FALLBACK
  backend := some failingBackend
  routes := ["completion"]

/-- The test call `completion(model_id="test-model", content="Hello world")`. -/
def helloArgs : CallArgs :=
  ⟨[], [("model_id", .json (.str "test-model")), ("content", .json (.str "Hello world"))]⟩

/-- Empty cache filesystem, backend call counter at zero. -/
def st0 : SysState := ⟨⟨[], []⟩, 0⟩

/-- A record whose payload is JSON null, stored at the key of the test
call `completion(model_id="test-model", content="Hello world")`. -/
def nullRecord : CacheRecord :=
  { cache_key := generate_cache_key mockDispatcher "completion" helloArgs
    response := .null
    provider_type := "MockRealProvider"
    api_name := "MockInferenceProvider"
    response_type := "dict" }

/-- A filesystem holding only `nullRecord` at its namespaced path. -/
def nullSeededState : SysState :=
  ⟨⟨[], [(get_cache_path mockDispatcher (generate_cache_key mockDispatcher "completion" helloArgs),
      nullRecord)]⟩, 0⟩

/-- The dict returned by the mock backend on its first call. -/
def mockDictResponse : PyVal :=
  .json (.obj (.cons "content" (.str "Response to: Hello world")
    (.cons "model" (.str "test-model") (.cons "call_number" (.num 1) .nil))))

/-- First `completion` call on an empty cache (fallback mode). -/
def firstCall : Except PyExn PyVal × SysState :=
  acall mockDispatcher "completion" helloArgs st0

/-- Identical second call, on the state the first call left. -/
def secondCall : Except PyExn PyVal × SysState :=
  acall mockDispatcher "completion" helloArgs firstCall.2

/-- Keyword arguments `a=1, b=2` given in that insertion order. -/
def kwFirstAB : CallArgs := ⟨[], [("a", .json (.num 1)), ("b", .json (.num 2))]⟩

/-- The semantically identical keyword arguments in the other order. -/
def kwFirstBA : CallArgs := ⟨[], [("b", .json (.num 2)), ("a", .json (.num 1))]⟩

/-- A record whose stored type tag is absent from the decode registry. -/
def unknownTypeRecord : CacheRecord :=
  { cache_key := "k"
    response := .obj (.cons "content" (.str "hi") .nil)
    provider_type := "MockRealProvider"
    api_name := "MockInferenceProvider"
    response_type := "ToolCallResponse" }

/-- One single-positional-argument call per natural number. -/
def argOfNat (n : Nat) : CallArgs :=
  ⟨[.json (.num (n : Int))], []⟩

/-! ## Lemmas about the store, the probe and MD5 bounds -/

/-- The `mkdir` step touches only directories, never files. -/
theorem FS.addDir_files (fs : FS) (p : List String) : (fs.addDir p).files = fs.files := by
  unfold FS.addDir
  split <;> rfl

/-- The namespace `mkdir` of `_get_cache_path` leaves the files unchanged. -/
theorem mkdirNamespace_files (d : Dispatcher) (fs : FS) :
    (mkdirNamespace d fs).files = fs.files := by
  unfold mkdirNamespace
  rw [FS.addDir_files, FS.addDir_files]

/-- File lookup only reads the files, so it is unaffected by `mkdir`. -/
theorem lookupFile_mkdirNamespace (d : Dispatcher) (fs : FS) (p : List String) :
    (mkdirNamespace d fs).lookupFile p = fs.lookupFile p := by
  unfold FS.lookupFile
  rw [mkdirNamespace_files]

/-- Probing an absent key returns Python `None` and only makes directories. -/
theorem load_from_cache_of_none {d : Dispatcher} {key : String} {fs : FS}
    (h : fs.lookupFile (get_cache_path d key) = none) :
    load_from_cache d key fs = (.json .null, mkdirNamespace d fs) := by
  simp only [load_from_cache, lookupFile_mkdirNamespace, h]

/-- Probing a present key decodes the stored record and only makes
directories. -/
theorem load_from_cache_of_some {d : Dispatcher} {key : String} {fs : FS} {rec : CacheRecord}
    (h : fs.lookupFile (get_cache_path d key) = some rec) :
    load_from_cache d key fs = (decodeRecord rec, mkdirNamespace d fs) := by
  simp only [load_from_cache, lookupFile_mkdirNamespace, h]

/-- Reading back the just-written path yields the written record. -/
theorem lookupFile_writeFile (fs : FS) (p : List String) (r : CacheRecord) :
    (fs.writeFile p r).lookupFile p = some r := by
  unfold FS.lookupFile FS.writeFile
  simp

/-- Filtering out an absent path keeps every file. -/
theorem filter_ne_of_lookup_none (fs : FS) (p : List String)
    (h : fs.lookupFile p = none) :
    fs.files.filter (fun e => !(e.1 == p)) = fs.files := by
  unfold FS.lookupFile at h
  have hfind : fs.files.find? (fun e => e.1 == p) = none := by
    cases hf : fs.files.find? (fun e => e.1 == p) with
    | none => rfl
    | some e => rw [hf] at h; simp at h
  have hall := List.find?_eq_none.mp hfind
  rw [List.filter_eq_self]
  intro e he
  simpa using hall e he

/-- Writing a path that held no file grows the file count by exactly one. -/
theorem fileCount_writeFile_of_none (fs : FS) (p : List String) (r : CacheRecord)
    (h : fs.lookupFile p = none) :
    (fs.writeFile p r).fileCount = fs.fileCount + 1 := by
  unfold FS.writeFile FS.fileCount
  simp [filter_ne_of_lookup_none fs p h]

/-! ## C2 -/

/-- C2: under `CACHE_ONLY`, an operation of the capability set whose key has
no cache record fails with the cache-miss `RuntimeError` naming the computed
key and the mode, the real backend is not invoked, and no file changes. -/
theorem cache_only_miss_raises_and_spares_backend
    (d : Dispatcher) (m : String) (a : CallArgs) (st : SysState)
    (hroute : m ∈ d.routes) (hmode : d.mode = ReplayMode.CACHE_ONLY)
    (hmiss : st.fs.lookupFile (get_cache_path d (generate_cache_key d m a)) = none) :
    (acall d m a st).1 =
        .error (.runtimeError (cacheMissCacheOnlyMsg (generate_cache_key d m a))) ∧
      (acall d m a st).2.backendCalls = st.backendCalls ∧
      (acall d m a st).2.fs.files = st.fs.files := by
  have hcall : acall d m a st =
      (.error (.runtimeError (cacheMissCacheOnlyMsg (generate_cache_key d m a))),
        ⟨mkdirNamespace d st.fs, st.backendCalls⟩) := by
    simp only [acall, if_pos hroute, load_from_cache_of_none hmiss, hmode, ne_eq,
      not_true_eq_false, if_false, if_true, reduceIte]
  rw [hcall]
  exact ⟨rfl, rfl, mkdirNamespace_files d st.fs⟩

/-- Witness for C2 at the `CACHE_ONLY` test scenario on an empty cache. -/
theorem cache_only_miss_witness :
    (acall cacheOnlyDispatcher "completion" helloArgs st0).1 =
        .error (.runtimeError
          (cacheMissCacheOnlyMsg (generate_cache_key cacheOnlyDispatcher "completion" helloArgs))) ∧
      (acall cacheOnlyDispatcher "completion" helloArgs st0).2.backendCalls = st0.backendCalls ∧
      (acall cacheOnlyDispatcher "completion" helloArgs st0).2.fs.files = st0.fs.files :=
  cache_only_miss_raises_and_spares_backend cacheOnlyDispatcher "completion" helloArgs st0
    (by decide) rfl (by decide)


/-- The probe always returns the filesystem with the namespace directories
made, whether or not the file exists. -/
theorem load_from_cache_snd (d : Dispatcher) (key : String) (fs : FS) :
    (load_from_cache d key fs).2 = mkdirNamespace d fs := by
  simp only [load_from_cache]
  split <;> rfl

/-- A record whose stored payload is JSON null decodes to Python `None`. -/
theorem decodeRecord_null (rec : CacheRecord) (h : rec.response = Json.null) :
    decodeRecord rec = .json Json.null := by
  unfold decodeRecord
  rw [h]
  simp [truthyJson]

/-! ## C5 -/

/-- C5: on a fallback-mode miss, whatever the real backend raises is
returned unchanged, and the cache files are untouched. -/
theorem backend_error_propagates_unchanged
    (d : Dispatcher) (m : String) (a : CallArgs) (st : SysState) (b : Backend) (e : PyExn)
    (hroute : m ∈ d.routes) (hmode : d.mode = ReplayMode.CACHE_WITH_FALLBACK)
    (hb : d.backend = some b)
    (hmiss : st.fs.lookupFile (get_cache_path d (generate_cache_key d m a)) = none)
    (herr : b.impl m a = .error e) :
    (acall d m a st).1 = .error e ∧
      (acall d m a st).2.fs.files = st.fs.files := by
  have hcall : acall d m a st =
      (.error e, ⟨mkdirNamespace d st.fs, st.backendCalls + 1⟩) := by
    simp only [acall, if_pos hroute, load_from_cache_of_none hmiss, hmode, hb, herr, ne_eq,
      not_true_eq_false, if_false, reduceIte]
    rw [if_neg (fun hx => ReplayMode.noConfusion hx)]
  rw [hcall]
  exact ⟨rfl, mkdirNamespace_files d st.fs⟩

/-- Witness for C5: a backend raising a connection error on an empty cache. -/
theorem backend_error_witness :
    (acall failingDispatcher "completion" helloArgs st0).1 = .error (.other "ConnectionError" "boom") ∧
      (acall failingDispatcher "completion" helloArgs st0).2.fs.files = st0.fs.files :=
  backend_error_propagates_unchanged failingDispatcher "completion" helloArgs st0
    failingBackend (.other "ConnectionError" "boom") (by decide) rfl rfl (by decide) rfl

/-! ## C4 (amended) -/

/-- C4 (amended): a cache hit, and any `CACHE_ONLY` call, leaves the cache
files unchanged, but the namespace directories are made by the cache-path
computation on every such call (an already-existing directory is unchanged);
directory creation is not reserved to the first write. -/
theorem non_writing_call_touches_only_namespace_dirs
    (d : Dispatcher) (m : String) (a : CallArgs) (st : SysState)
    (hroute : m ∈ d.routes)
    (h : (load_from_cache d (generate_cache_key d m a) st.fs).1 ≠ PyVal.json Json.null ∨
      d.mode = ReplayMode.CACHE_ONLY) :
    (acall d m a st).2.fs.files = st.fs.files ∧
      (acall d m a st).2.fs.dirs = (mkdirNamespace d st.fs).dirs := by
  have hsnd := load_from_cache_snd d (generate_cache_key d m a) st.fs
  have h2 : (acall d m a st).2 = ⟨mkdirNamespace d st.fs, st.backendCalls⟩ := by
    by_cases hp : (load_from_cache d (generate_cache_key d m a) st.fs).1 = PyVal.json Json.null
    · have hmode : d.mode = ReplayMode.CACHE_ONLY := by
        rcases h with h | h
        · exact absurd hp h
        · exact h
      simp only [acall, if_pos hroute, hp, ne_eq, not_true_eq_false, if_false, hmode, reduceIte,
        hsnd]
    · simp only [acall, if_pos hroute, if_pos hp, hsnd]
  rw [h2]
  exact ⟨mkdirNamespace_files d st.fs, rfl⟩

/-- Witness for C4 (amended), at a `CACHE_ONLY` call on the empty cache. -/
theorem non_writing_call_witness :
    (acall cacheOnlyDispatcher "completion" helloArgs st0).2.fs.files = st0.fs.files ∧
      (acall cacheOnlyDispatcher "completion" helloArgs st0).2.fs.dirs =
        (mkdirNamespace cacheOnlyDispatcher st0.fs).dirs :=
  non_writing_call_touches_only_namespace_dirs cacheOnlyDispatcher "completion" helloArgs st0
    (by decide) (Or.inr rfl)

/-! ## C9 -/

/-- C9: a cache file whose stored `response` payload is JSON null is treated
as a cache miss although the file exists: under `CACHE_ONLY` the call fails
with the cache-miss error, and under `CACHE_WITH_FALLBACK` the real backend
is invoked (counter incremented) and the record at that path overwritten. -/
theorem null_payload_record_is_miss
    (d : Dispatcher) (m : String) (a : CallArgs) (st : SysState) (rec : CacheRecord)
    (hroute : m ∈ d.routes)
    (hrec : st.fs.lookupFile (get_cache_path d (generate_cache_key d m a)) = some rec)
    (hnull : rec.response = Json.null) :
    (d.mode = ReplayMode.CACHE_ONLY →
      (acall d m a st).1 =
        .error (.runtimeError (cacheMissCacheOnlyMsg (generate_cache_key d m a)))) ∧
    (∀ b resp, d.mode = ReplayMode.CACHE_WITH_FALLBACK → d.backend = some b →
      b.impl m a = .ok resp →
      (acall d m a st).1 = .ok resp ∧
        (acall d m a st).2.backendCalls = st.backendCalls + 1 ∧
        (acall d m a st).2.fs.lookupFile (get_cache_path d (generate_cache_key d m a)) =
          some (encodeRecord d (generate_cache_key d m a) resp)) := by
  have hprobe : load_from_cache d (generate_cache_key d m a) st.fs =
      (.json .null, mkdirNamespace d st.fs) := by
    rw [load_from_cache_of_some hrec, decodeRecord_null rec hnull]
  constructor
  · intro hmode
    simp only [acall, if_pos hroute, hprobe, hmode, ne_eq, not_true_eq_false, if_false,
      reduceIte]
  · intro b resp hmode hb hok
    have hcall : acall d m a st =
        (.ok resp,
          ⟨save_to_cache d (generate_cache_key d m a) resp (mkdirNamespace d st.fs),
            st.backendCalls + 1⟩) := by
      simp only [acall, if_pos hroute, hprobe, hmode, hb, hok, ne_eq, not_true_eq_false,
        if_false, reduceIte]
      rw [if_neg (fun hx => ReplayMode.noConfusion hx)]
    rw [hcall]
    exact ⟨rfl, rfl, by unfold save_to_cache; exact lookupFile_writeFile _ _ _⟩

/-- Witness for C9: the null-payload record is overwritten through the
fallback backend. -/
theorem null_payload_record_witness :
    (mockDispatcher.mode = ReplayMode.CACHE_ONLY →
      (acall mockDispatcher "completion" helloArgs nullSeededState).1 =
        .error (.runtimeError
          (cacheMissCacheOnlyMsg (generate_cache_key mockDispatcher "completion" helloArgs)))) ∧
    (∀ b resp, mockDispatcher.mode = ReplayMode.CACHE_WITH_FALLBACK →
      mockDispatcher.backend = some b → b.impl "completion" helloArgs = .ok resp →
      (acall mockDispatcher "completion" helloArgs nullSeededState).1 = .ok resp ∧
        (acall mockDispatcher "completion" helloArgs nullSeededState).2.backendCalls =
          nullSeededState.backendCalls + 1 ∧
        (acall mockDispatcher "completion" helloArgs nullSeededState).2.fs.lookupFile
            (get_cache_path mockDispatcher (generate_cache_key mockDispatcher "completion" helloArgs)) =
          some (encodeRecord mockDispatcher
            (generate_cache_key mockDispatcher "completion" helloArgs) resp)) :=
  null_payload_record_is_miss mockDispatcher "completion" helloArgs nullSeededState nullRecord
    (by decide) (by decide) rfl


/-! ## C1 (code bug: replay of a plain-dict result) -/

/-- C1 evaluated at the test scenario of the repository: the first call
hits the backend once, writes exactly one cache file and returns the dict
produced by the backend; the identical second call changes nothing on disk
and spares the backend, but returns the `str()`-rendered representation
string of the dict instead of an equal result — contradicting the
`response2 == response1` assertion of the unit tests and the miss-then-hit
property of the spec. -/
theorem replayed_dict_result_degrades_to_string :
    firstCall.1 = .ok mockDictResponse ∧
      firstCall.2.backendCalls = 1 ∧
      firstCall.2.fs.fileCount = 1 ∧
      secondCall.2 = firstCall.2 ∧
      secondCall.1 =
        .ok (.json (.str
          "\x7b\x27content\x27: \x27Response to: Hello world\x27, \x27model\x27: \x27test-model\x27, \x27call_number\x27: 1\x7d")) ∧
      secondCall.1 ≠ firstCall.1 := by
  decide

/-! ## C3 -/

/-- C3 counterexample: the two keyword dicts hold the same entries (they are
permutations of one another, hence equal as Python dicts), yet the key
function renders them in insertion order and produces different keys. -/
theorem kwarg_insertion_order_changes_key :
    kwFirstAB.kw.Perm kwFirstBA.kw ∧
      generate_cache_key mockDispatcher "completion" kwFirstAB ≠
        generate_cache_key mockDispatcher "completion" kwFirstBA := by
  constructor
  · decide
  · decide

/-- C3 (amended): the key is a pure function of the operation name and the
textual rendering of the arguments — identical renderings always give
identical keys, within a process and across restarts, with no dependence on
memory addresses or object identity — but it does depend on the keyword
insertion order through the rendering. -/
theorem cache_key_function_of_rendering
    (d : Dispatcher) (m : String) (a1 a2 : CallArgs)
    (h : paramString a1 = paramString a2) :
    generate_cache_key d m a1 = generate_cache_key d m a2 := by
  unfold generate_cache_key
  rw [h]

/-- Witness for the amended C3. -/
theorem cache_key_function_of_rendering_witness :
    paramString helloArgs = paramString helloArgs ∧
      generate_cache_key mockDispatcher "completion" helloArgs =
        generate_cache_key mockDispatcher "completion" helloArgs :=
  ⟨rfl, cache_key_function_of_rendering mockDispatcher "completion" helloArgs helloArgs rfl⟩

/-! ## C6 -/

/-- C6: decoding degrades to the raw stored payload — without raising —
whenever the stored type tag is not in the registry, or reconstruction
fails. -/
theorem decode_degrades_to_raw
    (rec : CacheRecord)
    (h : rec.response_type ∉ registryTypes ∨
      reconstructResponse rec.response_type rec.response = none) :
    decodeRecord rec = .json rec.response := by
  have hnone : reconstructResponse rec.response_type rec.response = none := by
    rcases h with h | h
    · unfold reconstructResponse
      rw [if_neg h]
    · exact h
  unfold decodeRecord
  rw [hnone]
  split <;> rfl

/-- Witness for C6 at a record with an unregistered type tag. -/
theorem decode_degrades_to_raw_witness :
    decodeRecord unknownTypeRecord = .json unknownTypeRecord.response :=
  decode_degrades_to_raw unknownTypeRecord (Or.inl (by decide))

/-! ## C7 -/

/-- C7: a structured result of a registry type round-trips through the
codec: encoding it and decoding the stored record returns an equal value.
(The registry response classes all have required fields, so their dumped
field view is nonempty.) -/
theorem registry_typed_result_round_trips
    (d : Dispatcher) (key ty : String) (fields : JsonObj)
    (hty : ty ∈ registryTypes) (hne : fields ≠ JsonObj.nil) :
    decodeRecord (encodeRecord d key (.model ty fields)) = .model ty fields := by
  have hne' : (ty != "") = true := by
    have hne2 : ty ≠ "" := by
      rintro rfl
      simp [registryTypes] at hty
    simpa using hne2
  have htruthy : truthyJson (Json.obj fields) = true := by
    cases fields with
    | nil => exact absurd rfl hne
    | cons k v tl => rfl
  unfold encodeRecord serializeResponse responseTypeName decodeRecord
  simp only [hne', htruthy, Bool.and_self, if_true]
  unfold reconstructResponse
  rw [if_pos hty]

/-- Witness for C7 at a `ChatCompletionResponse`-tagged result. -/
theorem registry_typed_result_round_trips_witness :
    decodeRecord (encodeRecord mockDispatcher "k"
        (.model "ChatCompletionResponse" (.cons "completion_message" (.str "hello") .nil))) =
      .model "ChatCompletionResponse" (.cons "completion_message" (.str "hello") .nil) :=
  registry_typed_result_round_trips mockDispatcher "k" "ChatCompletionResponse"
    (.cons "completion_message" (.str "hello") .nil) (by decide) (by decide)

/-! ## C10 -/

/-- C10 counterexample: writing a record through the test
`MockInferenceProvider` dispatcher stores metadata `api_name`
`"MockInferenceProvider"` (the protocol name verbatim), while the path it is
stored under uses the lowercased, `provider`-stripped component
`"mockinference"` — the two differ. -/
theorem record_api_name_differs_from_path_component :
    (save_to_cache mockDispatcher "k" (.json (.str "v")) ⟨[], []⟩).lookupFile
        ["mockinference", "MockRealProvider", "k.json"] =
      some (encodeRecord mockDispatcher "k" (.json (.str "v"))) ∧
      (encodeRecord mockDispatcher "k" (.json (.str "v"))).api_name = "MockInferenceProvider" ∧
      "MockInferenceProvider" ≠ "mockinference" := by
  decide

/-- C10 (amended): the metadata `api_name` is the declared protocol name
verbatim, the path component is that name lowercased with `"provider"`
removed, and the two coincide exactly when the declared name equals its
lowercased stripped form. -/
theorem record_api_name_vs_path_component
    (d : Dispatcher) (key : String) (resp : PyVal) :
    (encodeRecord d key resp).api_name = d.protocolName ∧
      get_cache_path d key = [apiNameOf d.protocolName, providerTypeName d, key ++ ".json"] ∧
      ((encodeRecord d key resp).api_name = apiNameOf d.protocolName ↔
        d.protocolName = apiNameOf d.protocolName) :=
  ⟨rfl, rfl, Iff.rfl⟩


/-! ## C8 -/

/-- String concatenation is left-cancellative. -/
theorem string_append_left_cancel {s t u : String} (h : s ++ t = s ++ u) : t = u := by
  have hd : (s ++ t).data = (s ++ u).data := congrArg String.data h
  rw [String.data_append, String.data_append] at hd
  exact String.ext (List.append_cancel_left hd)

/-- String concatenation is right-cancellative. -/
theorem string_append_right_cancel {s t u : String} (h : t ++ s = u ++ s) : t = u := by
  have hd : (t ++ s).data = (u ++ s).data := congrArg String.data h
  rw [String.data_append, String.data_append] at hd
  exact String.ext (List.append_cancel_right hd)

/-- Every word of one MD5 compression output is below `2 ^ 32`. -/
theorem md5Block_lt (bs : List Nat) (blk : Nat) (h : MD5State) :
    (md5Block bs blk h).a < mask32 ∧ (md5Block bs blk h).b < mask32 ∧
      (md5Block bs blk h).c < mask32 ∧ (md5Block bs blk h).d < mask32 := by
  refine ⟨?_, ?_, ?_, ?_⟩ <;> exact Nat.mod_lt _ (by norm_num [mask32])

/-- The block fold keeps every chaining word below `2 ^ 32`. -/
theorem md5_foldl_lt (bs l : List Nat) (h : MD5State)
    (ha : h.a < mask32) (hb : h.b < mask32) (hc : h.c < mask32) (hd : h.d < mask32) :
    (l.foldl (fun acc blk => md5Block bs blk acc) h).a < mask32 ∧
      (l.foldl (fun acc blk => md5Block bs blk acc) h).b < mask32 ∧
      (l.foldl (fun acc blk => md5Block bs blk acc) h).c < mask32 ∧
      (l.foldl (fun acc blk => md5Block bs blk acc) h).d < mask32 := by
  induction l generalizing h with
  | nil => exact ⟨ha, hb, hc, hd⟩
  | cons x xs ih =>
    simp only [List.foldl_cons]
    exact ih (md5Block bs x h) (md5Block_lt bs x h).1 (md5Block_lt bs x h).2.1
      (md5Block_lt bs x h).2.2.1 (md5Block_lt bs x h).2.2.2

/-- Every chaining word of an MD5 digest is below `2 ^ 32`. -/
theorem md5Core_lt (bs : List Nat) :
    (md5Core bs).a < mask32 ∧ (md5Core bs).b < mask32 ∧
      (md5Core bs).c < mask32 ∧ (md5Core bs).d < mask32 := by
  unfold md5Core
  exact md5_foldl_lt bs _ md5Init (by decide) (by decide) (by decide) (by decide)

/-- Two MD5 states agreeing on all four words are equal. -/
theorem MD5State.ext_of (s t : MD5State)
    (ha : s.a = t.a) (hb : s.b = t.b) (hc : s.c = t.c) (hd : s.d = t.d) : s = t := by
  cases s
  cases t
  simp_all

/-- Equal digest states give equal hex digests. -/
theorem md5HexDigest_congr {s1 s2 : String}
    (h : md5Core (md5Pad (strBytes s1)) = md5Core (md5Pad (strBytes s2))) :
    md5HexDigest s1 = md5HexDigest s2 := by
  simp only [md5HexDigest]
  rw [h]

/-- Distinct numbers give distinct argument sets. -/
theorem argOfNat_injective : Function.Injective argOfNat := by
  intro m n h
  simp only [argOfNat, CallArgs.mk.injEq, List.cons.injEq, PyVal.json.injEq, Json.num.injEq,
    and_true] at h
  exact_mod_cast h

/-- C8 counterexample: key discrimination cannot hold for all pairs of
distinct argument sets — the hash inside the key is an MD5 digest truncated to eight
hex characters (32 bits of the 128-bit state), so by pigeonhole two distinct
argument sets share one cache key (and hence one cache file path). -/
theorem distinct_args_distinct_keys_fails :
    ¬ ∀ a1 a2 : CallArgs, a1 ≠ a2 →
      generate_cache_key mockDispatcher "completion" a1 ≠
        generate_cache_key mockDispatcher "completion" a2 := by
  intro hall
  have hcard : Fintype.card (Fin mask32 × Fin mask32 × Fin mask32 × Fin mask32) <
      Fintype.card (Fin (mask32 * (mask32 * (mask32 * mask32)) + 1)) := by
    simp only [Fintype.card_prod, Fintype.card_fin]
    exact Nat.lt_succ_self _
  obtain ⟨i, j, hij, heq⟩ := Fintype.exists_ne_map_eq_of_card_lt
    (fun i : Fin (mask32 * (mask32 * (mask32 * mask32)) + 1) =>
      ((⟨(md5Core (md5Pad (strBytes (paramString (argOfNat i.val))))).a,
          (md5Core_lt _).1⟩ : Fin mask32),
        (⟨(md5Core (md5Pad (strBytes (paramString (argOfNat i.val))))).b,
          (md5Core_lt _).2.1⟩ : Fin mask32),
        (⟨(md5Core (md5Pad (strBytes (paramString (argOfNat i.val))))).c,
          (md5Core_lt _).2.2.1⟩ : Fin mask32),
        (⟨(md5Core (md5Pad (strBytes (paramString (argOfNat i.val))))).d,
          (md5Core_lt _).2.2.2⟩ : Fin mask32))) hcard
  have h1 := congrArg (fun q => q.1.val) heq
  have h2 := congrArg (fun q => q.2.1.val) heq
  have h3 := congrArg (fun q => q.2.2.1.val) heq
  have h4 := congrArg (fun q => q.2.2.2.val) heq
  have hstate : md5Core (md5Pad (strBytes (paramString (argOfNat i.val)))) =
      md5Core (md5Pad (strBytes (paramString (argOfNat j.val)))) :=
    MD5State.ext_of _ _ h1 h2 h3 h4
  have hkey : generate_cache_key mockDispatcher "completion" (argOfNat i.val) =
      generate_cache_key mockDispatcher "completion" (argOfNat j.val) := by
    unfold generate_cache_key truncatedMd5
    rw [md5HexDigest_congr hstate]
  have hargs : argOfNat i.val ≠ argOfNat j.val := fun hc =>
    hij (Fin.val_injective (argOfNat_injective hc))
  exact hall _ _ hargs hkey

/-- C8 (amended): two argument sets whose rendered parameter strings have
distinct truncated digests produce distinct cache keys and distinct cache
file paths (so both such calls miss independently and each invokes the
backend and writes its own file). -/
theorem distinct_hashes_distinct_keys
    (d : Dispatcher) (m : String) (a1 a2 : CallArgs)
    (h : truncatedMd5 (paramString a1) ≠ truncatedMd5 (paramString a2)) :
    generate_cache_key d m a1 ≠ generate_cache_key d m a2 ∧
      get_cache_path d (generate_cache_key d m a1) ≠
        get_cache_path d (generate_cache_key d m a2) := by
  have hkey : generate_cache_key d m a1 ≠ generate_cache_key d m a2 := by
    intro hc
    unfold generate_cache_key at hc
    exact h (string_append_left_cancel hc)
  refine ⟨hkey, fun hc => hkey ?_⟩
  unfold get_cache_path at hc
  simp only [List.cons.injEq, and_true] at hc
  exact string_append_right_cancel hc.2.2

/-- Witness for the amended C8 at the two keyword orderings. -/
theorem distinct_hashes_distinct_keys_witness :
    truncatedMd5 (paramString kwFirstAB) ≠ truncatedMd5 (paramString kwFirstBA) ∧
      (generate_cache_key mockDispatcher "completion" kwFirstAB ≠
          generate_cache_key mockDispatcher "completion" kwFirstBA ∧
        get_cache_path mockDispatcher (generate_cache_key mockDispatcher "completion" kwFirstAB) ≠
          get_cache_path mockDispatcher (generate_cache_key mockDispatcher "completion" kwFirstBA)) :=
  ⟨by decide,
    distinct_hashes_distinct_keys mockDispatcher "completion" kwFirstAB kwFirstBA (by decide)⟩


/-- C4 counterexample: a `CACHE_ONLY` miss on a fresh cache root mutates the
disk after all — the cache-path computation creates the two namespace
directories before the call fails — so the fallback-mode record write is not
the only filesystem mutation and directories are not created only on first
write. -/
theorem cache_only_miss_still_mutates_disk :
    (acall cacheOnlyDispatcher "completion" helloArgs st0).2.fs ≠ st0.fs ∧
      (acall cacheOnlyDispatcher "completion" helloArgs st0).2.fs.dirs =
        [["mockinference"], ["mockinference", "MockRealProvider"]] ∧
      st0.fs.dirs = [] := by
  decide

end Replay
